import Mathlib

/-!
Verification of the Monitor repository (presence-triggered A/V capture).

The development shallowly embeds the two service programs:

* src/av_monitor.py   — Strategy B recorder (dual process arecord + rpicam-vid,
  ffmpeg merge on stop), StatusLEDs, MonitorSystem coordinator, Config loader.
* src/capture_monitor.py — Strategy A recorder (single rpicam-vid process with
  embedded audio), CaptureMonitor coordinator.

External effects (process launches, sleeps, polls, file system operations) are
represented by explicit environment records supplied to each operation and by
event traces returned alongside results, so that claims about what the code
does to the outside world are statable.  Python exceptions are represented by
Except values: a caught exception is folded into the normal return value, an
uncaught one surfaces as an error carrying the mutated object state.
-/

/-! ### Presence sensor (IRSensor.detect_presence, both variants)

av_monitor.py lines 155-182 and capture_monitor.py lines 106-140 implement the
same rule: read the 8x8 grid, count cells with temperature >= threshold, report
presence iff the count reaches the configured minimum; any read error is caught
and yields False.  Temperatures are modelled as rationals (only order
comparisons occur in the source). -/

/-- A sensor read: either the 8x8 grid of temperatures or a raised exception
(the exception text is irrelevant to control flow). -/
abbrev SensorRead := Except String (List (List ℚ))

/-- The hot-pixel counting loop of detect_presence: iterate over rows and
cells, incrementing an accumulator whenever temp >= threshold. -/
def hot_pixels (threshold : ℚ) (pixels : List (List ℚ)) : ℕ :=
  pixels.foldl (fun acc row =>
    row.foldl (fun a temp => if threshold ≤ temp then a + 1 else a) acc) 0

/-- IRSensor.detect_presence: on a successful read, true iff the hot-pixel
count reaches min_pixels; on a raised read error, the except branch returns
false. -/
def detect_presence (threshold : ℚ) (min_pixels : ℕ) (read : SensorRead) : Bool :=
  match read with
  | .error _ => false
  | .ok pixels => decide (min_pixels ≤ hot_pixels threshold pixels)

/-! ### Configuration loader (Config.load_config, av_monitor.py lines 60-91)

The Python code builds a defaults dict, overlays the parsed JSON file onto it
with dict.update, and proceeds with pure defaults when the file is absent or
any read/parse step raises.  We model JSON scalar values and the dict as an
association list, with update implemented key by key as dict.update does. -/

/-- A JSON scalar value as used by the config file: a string or a number. -/
abbrev JVal := String ⊕ ℚ

/-- The built-in defaults dict of Config.load_config, parameterised by the
home directory that Path.home() returns. -/
def config_defaults (home : String) : List (String × JVal) :=
  [("capture_dir", .inl (home ++ "/captures")),
   ("temperature_threshold", .inr 28),
   ("presence_pixels_required", .inr 3),
   ("stop_delay_seconds", .inr 60),
   ("poll_interval_seconds", .inr (1/2)),
   ("video_resolution", .inl "1920x1080"),
   ("video_framerate", .inr 30),
   ("audio_samplerate", .inr 48000),
   ("audio_channels", .inr 2),
   ("video_codec", .inl "h264"),
   ("audio_device", .inl "plughw:2,0"),
   ("autofocus_mode", .inl "auto")]

/-- Look a key up in a Python dict held as an association list. -/
def dictGet (d : List (String × JVal)) (k : String) : Option JVal :=
  match d with
  | [] => none
  | kv :: rest => if kv.1 = k then some kv.2 else dictGet rest k

/-- Set one key of a Python dict held as an association list: replace the
binding if the key is present, append it otherwise (Python dict semantics). -/
def dictSet (d : List (String × JVal)) (k : String) (v : JVal) : List (String × JVal) :=
  match d with
  | [] => [(k, v)]
  | kv :: rest => if kv.1 = k then (k, v) :: rest else kv :: dictSet rest k v

/-- Python dict.update: fold the user's key/value pairs into the dict. -/
def dictUpdate (d u : List (String × JVal)) : List (String × JVal) :=
  u.foldl (fun acc kv => dictSet acc kv.1 kv.2) d

/-- Outcome of attempting to read the override file: the file does not exist,
opening or json.load raised, or it parsed to a key/value list. -/
inductive ConfigRead where
  | absent
  | unreadable (e : String)
  | parsed (u : List (String × JVal))

/-- Config.load_config: overlay the parsed override onto the defaults; an
absent file leaves the defaults untouched, and a raised read or parse error is
caught by the surrounding except clause, also leaving the defaults untouched.
The function is total: no ConfigRead outcome propagates an error. -/
def load_config (home : String) (read : ConfigRead) : List (String × JVal) :=
  match read with
  | .absent => config_defaults home
  | .unreadable _ => config_defaults home
  | .parsed u => dictUpdate (config_defaults home) u

/-! ### The Config attribute record

After load_config merges the dicts, the Python code sets one object attribute
per key.  The recorder reads these attributes; we carry them as a record. -/

/-- The configuration attributes read by the recorders (fields and types as
set by Config.load_config from the merged dict). -/
structure Config where
  capture_dir : String
  temperature_threshold : ℚ
  presence_pixels_required : ℕ
  stop_delay_seconds : ℚ
  poll_interval_seconds : ℚ
  video_resolution : String
  video_framerate : ℕ
  audio_samplerate : ℕ
  audio_channels : ℕ
  video_codec : String
  audio_device : String
  autofocus_mode : String
deriving Repr, DecidableEq

/-! ### External-effect events

Each recorder operation returns, besides its Python return value and the
mutated object state, the list of external effects it performed, in order:
process launches (with the full command line), sleeps, poll checks, signals,
kills, waits, the ffmpeg merge invocation, unlink and stat calls. -/

/-- One external effect performed by a recorder operation.  Process handles
are opaque naturals handed out by the launch environment. -/
inductive RecEvent where
  | popenEv (cmd : List String)
  | sleepEv (secs : ℚ)
  | pollEv (proc : ℕ)
  | communicateEv (proc : ℕ)
  | sendSignalEv (proc : ℕ) (sig : String)
  | terminateEv (proc : ℕ)
  | killEv (proc : ℕ)
  | waitEv (proc : ℕ)
  | mergeEv (cmd : List String)
  | unlinkEv (path : String)
  | statEv (path : String)
deriving Repr, DecidableEq

/-- Python str() applied to an Optional path attribute (str(None) is the
string None). -/
def pyStr (p : Option String) : String :=
  match p with
  | some s => s
  | none => "None"

/-- Python tuple unpacking of a 2-element target from a list, as in
width, height = resolution.split: raises ValueError unless the list has
exactly two elements. -/
def pyUnpack2 (parts : List String) : Except String (String × String) :=
  match parts with
  | [a, b] => .ok (a, b)
  | _ => .error "ValueError"

/-- Split a character list at every occurrence of sep, keeping empty
segments, as Python str.split with an explicit separator does. -/
def splitChars (sep : Char) : List Char → List (List Char)
  | [] => [[]]
  | c :: rest =>
    let r := splitChars sep rest
    if c = sep then [] :: r
    else (c :: r.headI) :: r.tail

/-- Python str.split with a one-character separator (resolution.split on x). -/
def pySplit (sep : Char) (s : String) : List String :=
  (splitChars sep s.toList).map String.mk

/-! ### Strategy B recorder (AVRecorder of av_monitor.py, lines 185-456)

Dual-process capture: arecord for audio and rpicam-vid for video, each writing
a temporary file under /tmp, merged by ffmpeg on stop. -/

/-- The mutable attributes of av_monitor's AVRecorder object. -/
structure AVRecorder where
  video_process : Option ℕ
  audio_process : Option ℕ
  current_file : Option String
  temp_video_file : Option String
  temp_audio_file : Option String
deriving Repr, DecidableEq

/-- The arecord command built by AVRecorder.start_recording (lines 243-250). -/
def audio_cmd (config : Config) (temp_audio_file : String) : List String :=
  ["arecord",
   "-D", config.audio_device,
   "-f", "S16_LE",
   "-r", toString config.audio_samplerate,
   "-c", toString config.audio_channels,
   temp_audio_file]

/-- The rpicam-vid command built by AVRecorder.start_recording (lines
253-263): video only, no audio flags. -/
def video_cmd (config : Config) (width height : String) (temp_video_file : String) : List String :=
  ["rpicam-vid",
   "-t", "0",
   "--width", width,
   "--height", height,
   "--framerate", toString config.video_framerate,
   "--codec", config.video_codec,
   "--autofocus-mode", config.autofocus_mode,
   "-o", temp_video_file,
   "--nopreview"]

/-- The ffmpeg command built by AVRecorder.merge_av_files (lines 410-419):
video stream copied, audio encoded to AAC, shortest-stream duration,
overwrite the output file. -/
def merge_cmd (temp_video_file temp_audio_file current_file : String) : List String :=
  ["ffmpeg",
   "-i", temp_video_file,
   "-i", temp_audio_file,
   "-c:v", "copy",
   "-c:a", "aac",
   "-shortest",
   "-y",
   current_file]

/-- AVRecorder cleanup after a failed start (lines 310-330): kill and wait
any launched process (audio first, then video) and clear every session
attribute. -/
def AVRecorder.cleanup_failed_start (self : AVRecorder) : AVRecorder × List RecEvent :=
  let audioEvents : List RecEvent :=
    match self.audio_process with
    | some p => [.killEv p, .waitEv p]
    | none => []
  let videoEvents : List RecEvent :=
    match self.video_process with
    | some p => [.killEv p, .waitEv p]
    | none => []
  (⟨none, none, none, none, none⟩, audioEvents ++ videoEvents)

/-- AVRecorder cleanup of recording state (lines 444-450): clear every
session attribute. -/
def AVRecorder.cleanup_recording (_self : AVRecorder) : AVRecorder :=
  ⟨none, none, none, none, none⟩

/-- What the outside world does when AVRecorder.start_recording runs:
the generated output filename, the timestamp used for the temp file names,
whether each Popen launch raises or yields a process handle, and whether each
poll after the 0.5 second settle sleep reports an already-exited process
(carrying its stderr text). -/
structure AVStartEnv where
  filename : String
  timestamp : String
  audioLaunch : Except String ℕ
  videoLaunch : Except String ℕ
  audioEarlyExit : Option String
  videoEarlyExit : Option String

/-- AVRecorder.start_recording (lines 222-308).  An error result models an
exception escaping the method uncaught, carrying the object state at the
raise point; all launch failures and early exits inside the try block are
caught and reported as a False return. -/
def AVRecorder.start_recording (self : AVRecorder) (config : Config) (env : AVStartEnv) :
    Except (String × AVRecorder) (Bool × AVRecorder × List RecEvent) :=
  if self.video_process.isSome || self.audio_process.isSome then
    .ok (false, self, [])
  else
    let temp_video_file := "/tmp/temp_video_" ++ env.timestamp ++ ".mp4"
    let temp_audio_file := "/tmp/temp_audio_" ++ env.timestamp ++ ".wav"
    let self1 : AVRecorder :=
      { self with current_file := some env.filename,
                  temp_video_file := some temp_video_file,
                  temp_audio_file := some temp_audio_file }
    match pyUnpack2 (pySplit 'x' config.video_resolution) with
    | .error e => .error (e, self1)
    | .ok (width, height) =>
      let acmd := audio_cmd config temp_audio_file
      let vcmd := video_cmd config width height temp_video_file
      match env.audioLaunch with
      | .error _ =>
        let (selfC, cleanupEvents) := self1.cleanup_failed_start
        .ok (false, selfC, [.popenEv acmd] ++ cleanupEvents)
      | .ok ap =>
        let self2 := { self1 with audio_process := some ap }
        match env.videoLaunch with
        | .error _ =>
          let (selfC, cleanupEvents) := self2.cleanup_failed_start
          .ok (false, selfC, [.popenEv acmd, .popenEv vcmd] ++ cleanupEvents)
        | .ok vp =>
          let self3 := { self2 with video_process := some vp }
          match env.audioEarlyExit with
          | some _ =>
            let (selfC, cleanupEvents) := self3.cleanup_failed_start
            .ok (false, selfC,
              [.popenEv acmd, .popenEv vcmd, .sleepEv (1/2), .pollEv ap, .communicateEv ap]
                ++ cleanupEvents)
          | none =>
            match env.videoEarlyExit with
            | some _ =>
              let (selfC, cleanupEvents) := self3.cleanup_failed_start
              .ok (false, selfC,
                [.popenEv acmd, .popenEv vcmd, .sleepEv (1/2), .pollEv ap, .pollEv vp,
                 .communicateEv vp] ++ cleanupEvents)
            | none =>
              .ok (true, self3,
                [.popenEv acmd, .popenEv vcmd, .sleepEv (1/2), .pollEv ap, .pollEv vp])

/-- Outcome of the ffmpeg merge subprocess.run call: it completed with a
return code, timed out after 30 seconds, or raised. -/
inductive MergeOutcome where
  | completed (returncode : ℤ) (stderrTxt : String)
  | timedOut
  | raised (e : String)

/-- What the outside world does when AVRecorder.stop_recording runs: whether
each capture process exits within its grace period, whether each temporary
file exists, the merge outcome, whether each unlink succeeds, and the result
of stat on the final file. -/
structure AVStopEnv where
  videoGraceful : Bool
  audioGraceful : Bool
  tempVideoExists : Bool
  tempAudioExists : Bool
  merge : MergeOutcome
  unlinkVideoOk : Bool
  unlinkAudioOk : Bool
  statSize : Except String ℕ

/-- AVRecorder.merge_av_files (lines 403-442): run the ffmpeg merge command;
true iff it completed with return code 0; a timeout or a raised exception is
caught and yields false. -/
def AVRecorder.merge_av_files (self : AVRecorder) (outcome : MergeOutcome) :
    Bool × List RecEvent :=
  let cmd := merge_cmd (pyStr self.temp_video_file) (pyStr self.temp_audio_file)
    (pyStr self.current_file)
  match outcome with
  | .completed rc _ => (if rc = 0 then true else false, [.mergeEv cmd])
  | .timedOut => (false, [.mergeEv cmd])
  | .raised _ => (false, [.mergeEv cmd])

/-- The signal/wait/kill calls stop_recording makes on the video process
(lines 346-354): SIGINT, wait up to 10 seconds, on timeout kill and wait. -/
def video_stop_events (video_process : Option ℕ) (graceful : Bool) : List RecEvent :=
  match video_process with
  | none => []
  | some vp =>
    if graceful then [.sendSignalEv vp "SIGINT", .waitEv vp]
    else [.sendSignalEv vp "SIGINT", .waitEv vp, .killEv vp, .waitEv vp]

/-- The terminate/wait/kill calls stop_recording makes on the audio process
(lines 356-364): SIGTERM, wait up to 5 seconds, on timeout kill and wait. -/
def audio_stop_events (audio_process : Option ℕ) (graceful : Bool) : List RecEvent :=
  match audio_process with
  | none => []
  | some ap =>
    if graceful then [.terminateEv ap, .waitEv ap]
    else [.terminateEv ap, .waitEv ap, .killEv ap, .waitEv ap]

/-- AVRecorder.stop_recording (lines 332-401).  Total: every exception inside
the method body is caught by the outer except clause, which also clears the
session state before returning False. -/
def AVRecorder.stop_recording (self : AVRecorder) (env : AVStopEnv) :
    Bool × AVRecorder × List RecEvent :=
  if self.video_process = none ∧ self.audio_process = none then
    (false, self, [])
  else
    let stopEvents := video_stop_events self.video_process env.videoGraceful
      ++ audio_stop_events self.audio_process env.audioGraceful
    if self.temp_video_file = none ∨ env.tempVideoExists = false then
      (false, self.cleanup_recording, stopEvents)
    else if self.temp_audio_file = none ∨ env.tempAudioExists = false then
      (false, self.cleanup_recording, stopEvents)
    else
      let (merge_success, mergeEvents) := self.merge_av_files env.merge
      if merge_success then
        let unlinkEvents : List RecEvent :=
          if env.unlinkVideoOk then
            [.unlinkEv (pyStr self.temp_video_file)] ++
              (if env.unlinkAudioOk then [.unlinkEv (pyStr self.temp_audio_file)] else [])
          else []
        match env.statSize with
        | .error _ =>
          (false, self.cleanup_recording,
            stopEvents ++ mergeEvents ++ unlinkEvents ++ [.statEv (pyStr self.current_file)])
        | .ok _ =>
          (true, self.cleanup_recording,
            stopEvents ++ mergeEvents ++ unlinkEvents ++ [.statEv (pyStr self.current_file)])
      else
        (false, self.cleanup_recording, stopEvents ++ mergeEvents)

/-- AVRecorder.is_recording (lines 452-456): a stream is active iff its
handle exists and poll() returns None. -/
def AVRecorder.is_recording (self : AVRecorder) (poll : ℕ → Option ℤ) : Bool :=
  let video_active :=
    match self.video_process with
    | some p => (poll p).isNone
    | none => false
  let audio_active :=
    match self.audio_process with
    | some p => (poll p).isNone
    | none => false
  video_active || audio_active

/-! ### Strategy A recorder (AVRecorder of capture_monitor.py, lines 147-269)

Single rpicam-vid process with embedded AAC audio writing directly to the
final file; no settle sleep, no early-exit check, launch failures re-raised. -/

/-- The mutable attributes of capture_monitor's AVRecorder object. -/
structure CMRecorder where
  process : Option ℕ
  current_filename : Option String
deriving Repr, DecidableEq

/-- CMRecorder.is_recording (capture_monitor.py lines 267-269). -/
def CMRecorder.is_recording (self : CMRecorder) (poll : ℕ → Option ℤ) : Bool :=
  match self.process with
  | some p => (poll p).isNone
  | none => false

/-- The rpicam-vid command built by capture_monitor's start_recording (lines
176-191), from the Config class constants: combined video and AAC audio. -/
def cm_video_cmd (filepath : String) : List String :=
  ["rpicam-vid",
   "-t", "0",
   "-o", filepath,
   "--width", "1920",
   "--height", "1080",
   "--framerate", "30",
   "--codec", "h264",
   "--audio",
   "--audio-codec", "aac",
   "--audio-samplerate", "48000",
   "--audio-channels", "1",
   "-n"]

/-- What the outside world does when capture_monitor's start_recording runs:
the home directory (Config.CAPTURE_DIR is home/captures), the timestamp for
the filename, and the Popen outcome. -/
structure CMStartEnv where
  home : String
  timestamp : String
  launch : Except String ℕ

/-- capture_monitor's AVRecorder.start_recording (lines 155-217): no-op
returning the existing filename while recording; otherwise launches the
process and returns the new filename immediately, with no settle sleep and no
exit check.  A FileNotFoundError or any other Popen exception is logged and
re-raised: the error result carries the unmodified object state. -/
def CMRecorder.start_recording (self : CMRecorder) (poll : ℕ → Option ℤ) (env : CMStartEnv) :
    Except (String × CMRecorder) (Option String × CMRecorder × List RecEvent) :=
  if self.is_recording poll then
    .ok (self.current_filename, self, [])
  else
    let filename := "rec_" ++ env.timestamp ++ ".mp4"
    let filepath := env.home ++ "/captures/" ++ filename
    match env.launch with
    | .error e => .error (e, self)
    | .ok p =>
      .ok (some filename, ⟨some p, some filename⟩, [.popenEv (cm_video_cmd filepath)])

/-- What the outside world does when capture_monitor's stop_recording runs. -/
structure CMStopEnv where
  home : String
  graceful : Bool
  returncode : ℤ
  fileExists : Bool
  fileSize : ℕ

/-- capture_monitor's AVRecorder.stop_recording (lines 219-265): no-op while
not recording (the early return performs no process-handle side effects, not
even clearing a stale handle); otherwise signal, await and if needed kill the
process; the finally clause clears both session attributes on every other
path, including exceptional ones. -/
def CMRecorder.stop_recording (self : CMRecorder) (poll : ℕ → Option ℤ) (env : CMStopEnv) :
    CMRecorder × List RecEvent :=
  if self.is_recording poll = false then
    (self, [])
  else
    match self.process with
    | none => (self, [])
    | some p =>
      let stopEvents : List RecEvent :=
        [.sendSignalEv p "SIGINT"] ++
          (if env.graceful then [.communicateEv p]
           else [.communicateEv p, .killEv p, .waitEv p]) ++
          [.statEv (env.home ++ "/captures/" ++ pyStr self.current_filename)]
      (⟨none, none⟩, stopEvents)

/-! ### Recording coordinator of av_monitor.py (MonitorSystem.run, lines 497-535)

The loop body evaluates the transition table once per tick.  monitorStep
abstracts the recorder by the boolean its start_recording call would return
and reports how many start_recording and stop_recording calls the tick made;
avSystemStep runs the same logic with the Strategy B recorder plugged in. -/

/-- The RecordingState enum of both programs' coordinator (av_monitor names:
IDLE, RECORDING, WAITING_TO_STOP). -/
inductive RecordingState where
  | IDLE
  | RECORDING
  | WAITING_TO_STOP
deriving Repr, DecidableEq

/-- The coordinator attributes of MonitorSystem that the loop body mutates. -/
structure MonitorState where
  state : RecordingState
  absence_timer : Option ℚ
deriving Repr, DecidableEq

/-- One poll tick's inputs to the coordinator logic: the presence reading,
time.time(), and the boolean that start_recording would return if called. -/
structure CoordInput where
  presence : Bool
  current_time : ℚ
  startResult : Bool
deriving Repr

/-- How many recorder calls one tick performed. -/
structure CoordCalls where
  starts : ℕ
  stops : ℕ
deriving Repr, DecidableEq

/-- One iteration of MonitorSystem.run's state machine logic (lines 503-532),
with the recorder call abstracted by i.startResult. -/
def monitorStep (stop_delay_seconds : ℚ) (s : MonitorState) (i : CoordInput) :
    MonitorState × CoordCalls :=
  match s.state with
  | .IDLE =>
    if i.presence then
      if i.startResult then (⟨.RECORDING, none⟩, ⟨1, 0⟩)
      else (s, ⟨1, 0⟩)
    else (s, ⟨0, 0⟩)
  | .RECORDING =>
    if i.presence = false then (⟨.WAITING_TO_STOP, some i.current_time⟩, ⟨0, 0⟩)
    else (s, ⟨0, 0⟩)
  | .WAITING_TO_STOP =>
    if i.presence then (⟨.RECORDING, none⟩, ⟨0, 0⟩)
    else
      match s.absence_timer with
      | some t0 =>
        if stop_delay_seconds ≤ i.current_time - t0 then (⟨.IDLE, none⟩, ⟨0, 1⟩)
        else (s, ⟨0, 0⟩)
      | none => (s, ⟨0, 0⟩)

/-- MonitorSystem's initial coordinator state (constructor, lines 469-470). -/
def monitorInit : MonitorState := ⟨.IDLE, none⟩

/-- Iterate monitorStep over a list of poll ticks, accumulating the recorder
call counts. -/
def monitorRun (stop_delay_seconds : ℚ) (s : MonitorState) :
    List CoordInput → MonitorState × CoordCalls
  | [] => (s, ⟨0, 0⟩)
  | i :: rest =>
    let (s1, c1) := monitorStep stop_delay_seconds s i
    let (s2, c2) := monitorRun stop_delay_seconds s1 rest
    (s2, ⟨c1.starts + c2.starts, c1.stops + c2.stops⟩)

/-- One poll tick's inputs to the integrated system: the presence reading,
time.time(), and the recorder environments for the calls the tick may make. -/
structure AVSysInput where
  presence : Bool
  current_time : ℚ
  startEnv : AVStartEnv
  stopEnv : AVStopEnv

/-- One iteration of MonitorSystem.run's loop body with the Strategy B
recorder plugged in.  An error result models an exception escaping the loop
body; in the source it is caught by the except clause of run (line 539),
which ends the loop. -/
def avSystemStep (config : Config) (ms : MonitorState) (rec : AVRecorder) (i : AVSysInput) :
    Except (String × AVRecorder) (MonitorState × AVRecorder) :=
  match ms.state with
  | .IDLE =>
    if i.presence then
      match rec.start_recording config i.startEnv with
      | .error e => .error e
      | .ok (true, rec1, _) => .ok (⟨.RECORDING, none⟩, rec1)
      | .ok (false, rec1, _) => .ok (ms, rec1)
    else .ok (ms, rec)
  | .RECORDING =>
    if i.presence = false then .ok (⟨.WAITING_TO_STOP, some i.current_time⟩, rec)
    else .ok (ms, rec)
  | .WAITING_TO_STOP =>
    if i.presence then .ok (⟨.RECORDING, none⟩, rec)
    else
      match ms.absence_timer with
      | some t0 =>
        if config.stop_delay_seconds ≤ i.current_time - t0 then
          let (_, rec1, _) := rec.stop_recording i.stopEnv
          .ok (⟨.IDLE, none⟩, rec1)
        else .ok (ms, rec)
      | none => .ok (ms, rec)

/-- The while loop of MonitorSystem.run over a stream of poll ticks: it
consumes ticks until the inputs run out or the loop body raises.  Returns the
final coordinator and recorder state, how many ticks ran, and whether the
loop was ended by an exception (which run's except clause then catches,
running the finally cleanup). -/
def avRunLoop (config : Config) (ms : MonitorState) (rec : AVRecorder) :
    List AVSysInput → MonitorState × AVRecorder × ℕ × Bool
  | [] => (ms, rec, 0, false)
  | i :: rest =>
    match avSystemStep config ms rec i with
    | .error _ => (ms, rec, 1, true)
    | .ok (ms1, rec1) =>
      let (ms2, rec2, n, b) := avRunLoop config ms1 rec1 rest
      (ms2, rec2, n + 1, b)

/-! ### Recording coordinator of capture_monitor.py (CaptureMonitor._update,
lines 318-349) -/

/-- capture_monitor's RecordingState enum (IDLE, RECORDING, COOLDOWN). -/
inductive CMRecordingState where
  | IDLE
  | RECORDING
  | COOLDOWN
deriving Repr, DecidableEq

/-- The coordinator attributes of CaptureMonitor that _update mutates. -/
structure CMState where
  state : CMRecordingState
  cooldown_start_time : Option ℚ
deriving Repr, DecidableEq

/-- Config.STOP_DELAY_SECONDS of capture_monitor.py. -/
def cmStopDelay : ℚ := 60

/-- One poll tick's inputs to CaptureMonitor._update. -/
structure CMInput where
  presence : Bool
  now : ℚ
  poll : ℕ → Option ℤ
  startEnv : CMStartEnv
  stopEnv : CMStopEnv

/-- CaptureMonitor._update.  The IDLE branch transitions to RECORDING
unconditionally after start_recording returns; a raised start failure
propagates out of _update (error result), which in the source ends the run
loop (caught at line 313).  The COOLDOWN branch subtracts
cooldown_start_time from time.time(), a TypeError if the timer were None. -/
def cmUpdate (s : CMState) (rec : CMRecorder) (i : CMInput) :
    Except (String × CMRecorder) (CMState × CMRecorder × CoordCalls) :=
  match s.state with
  | .IDLE =>
    if i.presence then
      match rec.start_recording i.poll i.startEnv with
      | .error e => .error e
      | .ok (_, rec1, _) => .ok (⟨.RECORDING, s.cooldown_start_time⟩, rec1, ⟨1, 0⟩)
    else .ok (s, rec, ⟨0, 0⟩)
  | .RECORDING =>
    if i.presence = false then .ok (⟨.COOLDOWN, some i.now⟩, rec, ⟨0, 0⟩)
    else .ok (s, rec, ⟨0, 0⟩)
  | .COOLDOWN =>
    if i.presence then .ok (⟨.RECORDING, none⟩, rec, ⟨0, 0⟩)
    else
      match s.cooldown_start_time with
      | none => .error ("TypeError", rec)
      | some t0 =>
        if cmStopDelay ≤ i.now - t0 then
          let (rec1, _) := rec.stop_recording i.poll i.stopEnv
          .ok (⟨.IDLE, none⟩, rec1, ⟨0, 1⟩)
        else .ok (s, rec, ⟨0, 0⟩)

/-! ### Status LEDs (StatusLEDs of av_monitor.py, lines 94-134) and the
shutdown paths of MonitorSystem -/

/-- The two GPIO output lines of StatusLEDs (true = line active). -/
structure StatusLEDs where
  orange_led : Bool
  red_led : Bool
deriving Repr, DecidableEq

/-- set_idle (lines 111-115): orange on, red off. -/
def StatusLEDs.set_idle (_self : StatusLEDs) : StatusLEDs := ⟨true, false⟩

/-- set_recording (lines 117-121): orange off, red on. -/
def StatusLEDs.set_recording (_self : StatusLEDs) : StatusLEDs := ⟨false, true⟩

/-- set_waiting (lines 123-128): orange off, red kept on. -/
def StatusLEDs.set_waiting (_self : StatusLEDs) : StatusLEDs := ⟨false, true⟩

/-- cleanup (lines 130-134): both lines off. -/
def StatusLEDs.cleanup (_self : StatusLEDs) : StatusLEDs := ⟨false, false⟩

/-- The constructor (lines 96-109): the gpiozero LED objects start inactive,
then set_idle runs before the poll loop starts. -/
def StatusLEDs.construct : StatusLEDs := StatusLEDs.set_idle ⟨false, false⟩

/-- A call MonitorSystem makes while shutting down. -/
inductive SysEvent where
  | stopRecCall
  | ledCleanupCall
  | sysExitCall
  | logStoppedBanner
deriving Repr, DecidableEq

/-- The body of MonitorSystem.handle_signal (lines 473-480): stop the
recording if one is active, turn the LEDs off, call sys.exit(0). -/
def handle_signal_events (recActive : Bool) : List SysEvent :=
  (if recActive then [.stopRecCall] else []) ++ [.ledCleanupCall, .sysExitCall]

/-- The finally clause of MonitorSystem.run (lines 541-546): stop the
recording if one is still active, turn the LEDs off, log the stopped
banner. -/
def run_finally_events (recActive : Bool) : List SysEvent :=
  (if recActive then [.stopRecCall] else []) ++ [.ledCleanupCall, .logStoppedBanner]

/-- How MonitorSystem.run's loop ended: a SIGINT/SIGTERM handler ran, a
KeyboardInterrupt was caught (line 537), an Exception was caught (line 539),
or self.running became False. -/
inductive LoopExit where
  | signalExit
  | keyboardInterrupt
  | loopError
  | normalStop
deriving Repr, DecidableEq

/-- The shutdown calls made on each exit path of MonitorSystem.run, given
whether a recording was active when shutdown began.  On the signal path,
handle_signal runs in the main thread and its sys.exit(0) raises SystemExit
inside the try block of run; SystemExit subclasses BaseException, not
Exception, so neither except clause catches it and the finally clause still
runs.  By then stop_recording has cleared the session handles (or none were
active), so is_recording is False in the finally clause. -/
def shutdownTrace (recActive : Bool) : LoopExit → List SysEvent
  | .signalExit => handle_signal_events recActive ++ run_finally_events false
  | .keyboardInterrupt => run_finally_events recActive
  | .loopError => run_finally_events recActive
  | .normalStop => run_finally_events recActive

/-- How many StatusLEDs.cleanup calls a shutdown trace contains. -/
def ledCleanupCalls (trace : List SysEvent) : ℕ :=
  trace.countP (fun e => e == SysEvent.ledCleanupCall)

/-- Replay the LED effect of one shutdown call. -/
def applySysEvent (leds : StatusLEDs) (e : SysEvent) : StatusLEDs :=
  match e with
  | .ledCleanupCall => leds.cleanup
  | _ => leds

/-- Replay the LED effects of a shutdown trace. -/
def runLeds (leds : StatusLEDs) (trace : List SysEvent) : StatusLEDs :=
  trace.foldl applySysEvent leds

/-! ### Auxiliary predicates used by the claim statements -/

/-- Is this event an ffmpeg merge invocation? -/
def isMergeEv (e : RecEvent) : Bool :=
  match e with
  | .mergeEv _ => true
  | _ => false

/-- Is this event a settle sleep or an exit-status poll? -/
def isSettleOrPollEv (e : RecEvent) : Bool :=
  match e with
  | .sleepEv _ => true
  | .pollEv _ => true
  | _ => false

/-- The absence-timer invariant of MonitorSystem: the timer is set iff the
coordinator is in WAITING_TO_STOP. -/
def timerInv (s : MonitorState) : Prop :=
  s.absence_timer.isSome ↔ s.state = .WAITING_TO_STOP

/-- The cooldown-timer invariant of CaptureMonitor: the timer is set iff the
coordinator is in COOLDOWN. -/
def cmTimerInv (s : CMState) : Prop :=
  s.cooldown_start_time.isSome ↔ s.state = .COOLDOWN

/-! ### Helper lemmas -/

lemma pyUnpack2_eq_error (parts : List String) (h : parts.length ≠ 2) :
    pyUnpack2 parts = .error "ValueError" := by
  match parts with
  | [] => rfl
  | [_] => rfl
  | [a, b] => simp at h
  | _ :: _ :: _ :: _ => rfl

lemma av_stop_recording_state (s : AVRecorder) (env : AVStopEnv) :
    (s.stop_recording env).2.1 =
      if s.video_process = none ∧ s.audio_process = none then s
      else ⟨none, none, none, none, none⟩ := by
  by_cases hg : s.video_process = none ∧ s.audio_process = none
  · simp [AVRecorder.stop_recording, hg]
  · unfold AVRecorder.stop_recording AVRecorder.cleanup_recording
    simp only [if_neg hg]
    repeat' split
    all_goals rfl

lemma monitorRun_waiting (d tb : ℚ) (waits : List (ℚ × Bool))
    (h : ∀ w ∈ waits, w.1 - tb < d) (rest : List CoordInput) :
    monitorRun d ⟨.WAITING_TO_STOP, some tb⟩
        (waits.map (fun w => ⟨false, w.1, w.2⟩) ++ rest)
      = monitorRun d ⟨.WAITING_TO_STOP, some tb⟩ rest := by
  induction waits with
  | nil => rfl
  | cons w ws ih =>
    have hw : ¬ d ≤ w.1 - tb := not_le.2 (h w (List.mem_cons_self _ _))
    have hrest : ∀ x ∈ ws, x.1 - tb < d := fun x hx => h x (List.mem_cons_of_mem _ hx)
    have hstep : monitorStep d ⟨.WAITING_TO_STOP, some tb⟩ ⟨false, w.1, w.2⟩
        = (⟨.WAITING_TO_STOP, some tb⟩, ⟨0, 0⟩) := by
      simp [monitorStep, hw]
    simp only [List.map_cons, List.cons_append, monitorRun, hstep, List.append_eq]
    rw [ih hrest]
    rcases hr : monitorRun d ⟨.WAITING_TO_STOP, some tb⟩ rest with ⟨s2, c2⟩
    simp

/-! ### Helper lemmas for the sensor and the config dict -/

lemma hot_pixels_row (threshold : ℚ) (row : List ℚ) (a : ℕ) :
    row.foldl (fun a temp => if threshold ≤ temp then a + 1 else a) a
      = a + row.countP (fun temp => decide (threshold ≤ temp)) := by
  induction row generalizing a with
  | nil => simp
  | cons t ts ih =>
    by_cases h : threshold ≤ t
    · rw [List.foldl_cons, if_pos h, ih, List.countP_cons]
      simp [h]
      omega
    · rw [List.foldl_cons, if_neg h, ih, List.countP_cons]
      simp [h]

lemma hot_pixels_eq_countP (threshold : ℚ) (pixels : List (List ℚ)) :
    hot_pixels threshold pixels
      = pixels.flatten.countP (fun temp => decide (threshold ≤ temp)) := by
  unfold hot_pixels
  suffices h : ∀ a : ℕ, pixels.foldl (fun acc row =>
      row.foldl (fun a temp => if threshold ≤ temp then a + 1 else a) acc) a
      = a + pixels.flatten.countP (fun temp => decide (threshold ≤ temp)) by
    simpa using h 0
  induction pixels with
  | nil => simp
  | cons r rs ih =>
    intro a
    rw [List.foldl_cons, hot_pixels_row, ih, List.flatten_cons, List.countP_append]
    omega

lemma dictGet_dictSet_self (d : List (String × JVal)) (k : String) (v : JVal) :
    dictGet (dictSet d k v) k = some v := by
  induction d with
  | nil => simp [dictSet, dictGet]
  | cons kv rest ih =>
    by_cases h : kv.1 = k
    · simp [dictSet, h, dictGet]
    · simp [dictSet, h, dictGet, ih]

lemma dictGet_dictSet_ne (d : List (String × JVal)) (k k' : String) (v : JVal)
    (h : k ≠ k') : dictGet (dictSet d k v) k' = dictGet d k' := by
  induction d with
  | nil => simp [dictSet, dictGet, h]
  | cons kv rest ih =>
    by_cases hk : kv.1 = k
    · simp [dictSet, hk, dictGet, h]
    · simp [dictSet, hk, dictGet, ih]

lemma dictGet_dictUpdate_not_mem (u : List (String × JVal)) (k : String)
    (h : k ∉ u.map Prod.fst) :
    ∀ d, dictGet (dictUpdate d u) k = dictGet d k := by
  induction u with
  | nil => intro d; rfl
  | cons kv rest ih =>
    intro d
    simp only [List.map_cons, List.mem_cons, not_or] at h
    show dictGet (dictUpdate (dictSet d kv.1 kv.2) rest) k = dictGet d k
    rw [ih (by simpa using fun hm => h.2 hm),
        dictGet_dictSet_ne _ _ _ _ (fun he => h.1 he.symm)]

lemma dictGet_dictUpdate_mem (u : List (String × JVal)) (k : String) (v : JVal)
    (hnd : (u.map Prod.fst).Nodup) (h : dictGet u k = some v) :
    ∀ d, dictGet (dictUpdate d u) k = some v := by
  induction u with
  | nil => simp [dictGet] at h
  | cons kv rest ih =>
    intro d
    simp only [List.map_cons, List.nodup_cons] at hnd
    by_cases hk : kv.1 = k
    · have hv : kv.2 = v := by simpa [dictGet, hk] using h
      show dictGet (dictUpdate (dictSet d kv.1 kv.2) rest) k = some v
      rw [dictGet_dictUpdate_not_mem rest k (by rw [← hk]; exact hnd.1),
          hk, dictGet_dictSet_self, hv]
    · have h' : dictGet rest k = some v := by simpa [dictGet, hk] using h
      show dictGet (dictUpdate (dictSet d kv.1 kv.2) rest) k = some v
      exact ih hnd.2 h' (dictSet d kv.1 kv.2)

lemma dictGet_eq_none_iff (u : List (String × JVal)) (k : String) :
    dictGet u k = none ↔ k ∉ u.map Prod.fst := by
  induction u with
  | nil => simp [dictGet]
  | cons kv rest ih =>
    by_cases hk : kv.1 = k
    · simp [dictGet, hk]
    · have hk2 : k ≠ kv.1 := fun he => hk he.symm
      simp [dictGet, hk, ih, hk2]

/-! ### Claim theorems: sensor and config -/

/-- C2: detect_presence is a total specification over one frame: on a
successful read it returns true iff the number of cells with temperature >=
threshold is at least presence_pixels_required, and on any read failure it
returns false (the exception is caught, not propagated: the function is total
over all read outcomes). -/
theorem C2_detect_presence (threshold : ℚ) (min_pixels : ℕ) (read : SensorRead) :
    (∀ pixels, read = .ok pixels →
      (detect_presence threshold min_pixels read = true ↔
        min_pixels ≤ pixels.flatten.countP (fun temp => decide (threshold ≤ temp)))) ∧
    (∀ e, read = .error e → detect_presence threshold min_pixels read = false) := by
  constructor
  · intro pixels hp
    subst hp
    simp [detect_presence, hot_pixels_eq_countP]
  · intro e he
    subst he
    rfl

/-- Witness for C2: the spec's example, an 8x8 grid with exactly 3 cells at
29 degrees and the rest at 20, threshold 28, minimum 3, yields presence. -/
theorem C2_detect_presence_witness :
    detect_presence 28 3 (.ok
      ([[29, 29, 29, 20, 20, 20, 20, 20]] ++ List.replicate 7 (List.replicate 8 (20 : ℚ)))) = true := by
  have h := (C2_detect_presence 28 3 (.ok
      ([[29, 29, 29, 20, 20, 20, 20, 20]] ++ List.replicate 7 (List.replicate 8 (20 : ℚ))))).1
      _ rfl
  rw [h]
  decide

/-- C8: load_config yields the built-in default for each key absent from the
override file and the override value for each key present in it (override
files in which no key repeats, as produced by json.load); a wholly absent or
unparsable file yields every default; and both failure outcomes are absorbed
(load_config is total over ConfigRead, so a missing or unparsable file never
propagates an error to the caller). -/
theorem C8_load_config (home : String) (u : List (String × JVal)) (k : String)
    (hnd : (u.map Prod.fst).Nodup) :
    (∀ v, dictGet u k = some v → dictGet (load_config home (.parsed u)) k = some v) ∧
    (dictGet u k = none →
      dictGet (load_config home (.parsed u)) k = dictGet (config_defaults home) k) ∧
    (∀ e, load_config home (.unreadable e) = config_defaults home) ∧
    (load_config home .absent = config_defaults home) := by
  refine ⟨?_, ?_, fun _ => rfl, rfl⟩
  · intro v hv
    exact dictGet_dictUpdate_mem _ _ _ hnd hv _
  · intro hnone
    exact dictGet_dictUpdate_not_mem _ _ ((dictGet_eq_none_iff u k).1 hnone) _

/-- Witness for C8: the spec's example, an override containing only
stop_delay_seconds = 30 yields 30 for that key and the default 28 for
temperature_threshold. -/
theorem C8_load_config_witness :
    dictGet (load_config "/home/pi" (.parsed [("stop_delay_seconds", .inr 30)]))
        "stop_delay_seconds" = some (.inr 30) ∧
    dictGet (load_config "/home/pi" (.parsed [("stop_delay_seconds", .inr 30)]))
        "temperature_threshold" = dictGet (config_defaults "/home/pi") "temperature_threshold" := by
  constructor
  · exact (C8_load_config "/home/pi" [("stop_delay_seconds", .inr 30)]
      "stop_delay_seconds" (by simp)).1 _ (by rfl)
  · exact (C8_load_config "/home/pi" [("stop_delay_seconds", .inr 30)]
      "temperature_threshold" (by simp)).2.1 (by rfl)

/-! ### Claim theorems: recorder no-ops, session cleanup, status LEDs,
malformed resolution -/

/-- C6: calling start_recording while a session is active is a no-op that
leaves the object (including the session output path) unchanged and returns
the already-active signal (False in av_monitor, the existing filename in
capture_monitor); calling stop_recording while no session is active is a
no-op with no process-handle side effects and no external events. -/
theorem C6_start_stop_noop :
    (∀ (s : AVRecorder) (config : Config) (env : AVStartEnv),
      (s.video_process.isSome || s.audio_process.isSome) = true →
      s.start_recording config env = .ok (false, s, [])) ∧
    (∀ (s : AVRecorder) (env : AVStopEnv),
      s.video_process = none → s.audio_process = none →
      s.stop_recording env = (false, s, [])) ∧
    (∀ (s : CMRecorder) (poll : ℕ → Option ℤ) (env : CMStartEnv),
      s.is_recording poll = true →
      s.start_recording poll env = .ok (s.current_filename, s, [])) ∧
    (∀ (s : CMRecorder) (poll : ℕ → Option ℤ) (env : CMStopEnv),
      s.is_recording poll = false →
      s.stop_recording poll env = (s, [])) := by
  refine ⟨?_, ?_, ?_, ?_⟩
  · intro s config env h
    simp [AVRecorder.start_recording, h]
  · intro s env h1 h2
    simp [AVRecorder.stop_recording, h1, h2]
  · intro s poll env h
    simp [CMRecorder.start_recording, h]
  · intro s poll env h
    simp [CMRecorder.stop_recording, h]

/-- Witness for C6 at concrete active and idle recorder states. -/
theorem C6_start_stop_noop_witness :
    AVRecorder.start_recording ⟨some 1, some 2, some "out.mp4", some "tv.mp4", some "ta.wav"⟩
        ⟨"/home/pi/captures", 28, 3, 60, 1/2, "1920x1080", 30, 48000, 2, "h264", "plughw:2,0", "auto"⟩
        ⟨"f.mp4", "ts", .ok 5, .ok 6, none, none⟩
      = .ok (false, ⟨some 1, some 2, some "out.mp4", some "tv.mp4", some "ta.wav"⟩, []) ∧
    AVRecorder.stop_recording ⟨none, none, none, none, none⟩
        ⟨true, true, true, true, .completed 0 "", true, true, .ok 100⟩
      = (false, ⟨none, none, none, none, none⟩, []) ∧
    CMRecorder.start_recording ⟨some 7, some "rec_a.mp4"⟩ (fun _ => none)
        ⟨"/home/pi", "ts", .ok 9⟩
      = .ok (some "rec_a.mp4", ⟨some 7, some "rec_a.mp4"⟩, []) ∧
    CMRecorder.stop_recording ⟨none, none⟩ (fun _ => none)
        ⟨"/home/pi", true, 0, true, 5⟩
      = (⟨none, none⟩, []) := by
  refine ⟨?_, ?_, ?_, ?_⟩
  · exact C6_start_stop_noop.1 _ _ _ (by rfl)
  · exact C6_start_stop_noop.2.1 _ _ rfl rfl
  · exact C6_start_stop_noop.2.2.1 _ _ _ (by rfl)
  · exact C6_start_stop_noop.2.2.2 _ _ _ (by rfl)

/-- C7: on every exit path of stop_recording the active-session handles are
cleared whenever a session existed, and after stop_recording returns,
is_recording is false against the same poll environment — in both recorder
variants (in capture_monitor the idle early-return leaves the stale attributes
untouched, but is_recording was already false there). -/
theorem C7_stop_clears_session :
    (∀ (s : AVRecorder) (env : AVStopEnv) (poll : ℕ → Option ℤ),
      (¬ (s.video_process = none ∧ s.audio_process = none) →
        (s.stop_recording env).2.1 = ⟨none, none, none, none, none⟩) ∧
      AVRecorder.is_recording (s.stop_recording env).2.1 poll = false) ∧
    (∀ (s : CMRecorder) (poll : ℕ → Option ℤ) (env : CMStopEnv),
      (s.is_recording poll = true → (s.stop_recording poll env).1 = ⟨none, none⟩) ∧
      CMRecorder.is_recording (s.stop_recording poll env).1 poll = false) := by
  constructor
  · intro s env poll
    have hstate := av_stop_recording_state s env
    by_cases hg : s.video_process = none ∧ s.audio_process = none
    · rw [if_pos hg] at hstate
      refine ⟨fun h => absurd hg h, ?_⟩
      rw [hstate]
      simp [AVRecorder.is_recording, hg.1, hg.2]
    · rw [if_neg hg] at hstate
      exact ⟨fun _ => hstate, by rw [hstate]; rfl⟩
  · intro s poll env
    by_cases hg : s.is_recording poll = true
    · rcases hp : s.process with _ | p
      · exfalso
        rw [CMRecorder.is_recording, hp] at hg
        simp at hg
      · have h1 : (s.stop_recording poll env).1 = ⟨none, none⟩ := by
          simp [CMRecorder.stop_recording, hg, hp]
        exact ⟨fun _ => h1, by rw [h1]; rfl⟩
    · have hfalse : s.is_recording poll = false := by
        cases h : s.is_recording poll
        · rfl
        · exact absurd h hg
      have h1 : s.stop_recording poll env = (s, []) := by
        simp [CMRecorder.stop_recording, hfalse]
      exact ⟨fun h => absurd h hg, by rw [h1]; exact hfalse⟩

/-- Witness for C7 at concrete active recorder states. -/
theorem C7_stop_clears_session_witness :
    (AVRecorder.stop_recording ⟨some 1, some 2, some "o.mp4", some "tv.mp4", some "ta.wav"⟩
        ⟨true, true, true, true, .completed 0 "", true, true, .ok 10⟩).2.1
      = ⟨none, none, none, none, none⟩ ∧
    (CMRecorder.stop_recording ⟨some 3, some "f.mp4"⟩ (fun _ => none)
        ⟨"/home/pi", true, 0, true, 1⟩).1 = ⟨none, none⟩ := by
  constructor
  · exact (C7_stop_clears_session.1 _ _ (fun _ => none)).1 (by simp)
  · exact (C7_stop_clears_session.2 _ (fun _ => none) _).1 (by rfl)

/-- C9 counterexample: the claim that cleanup() is called from every shutdown
path exactly once fails on the signal path: handle_signal calls cleanup and
then sys.exit(0), whose SystemExit is not caught by the except clauses of
run, so the finally clause calls cleanup a second time. -/
theorem C9_counterexample :
    ¬ (∀ (recActive : Bool) (p : LoopExit),
        ledCleanupCalls (shutdownTrace recActive p) = 1) := by
  intro h
  have h2 := h false .signalExit
  have h3 : ledCleanupCalls (shutdownTrace false .signalExit) = 2 := by rfl
  rw [h3] at h2
  exact absurd h2 (by decide)

/-- C9 amended: after construction exactly one of the two lines is active
(the idle rendering, orange on and red off); set_recording and set_waiting
always produce the identical line configuration (orange off, red on);
cleanup always results in both lines inactive and is called on every
shutdown path — exactly once on the KeyboardInterrupt, loop-error and
normal-stop paths but twice on the signal path — and after every shutdown
path both lines are inactive. -/
theorem C9_status_indicator_amended :
    StatusLEDs.construct = ⟨true, false⟩ ∧
    (∀ leds : StatusLEDs, leds.set_idle = ⟨true, false⟩) ∧
    (∀ leds : StatusLEDs, leds.set_recording = leds.set_waiting) ∧
    (∀ leds : StatusLEDs, leds.set_recording = ⟨false, true⟩) ∧
    (∀ leds : StatusLEDs, leds.cleanup = ⟨false, false⟩) ∧
    (∀ (recActive : Bool) (p : LoopExit),
      ledCleanupCalls (shutdownTrace recActive p)
        = (if p = .signalExit then 2 else 1)) ∧
    (∀ (recActive : Bool) (p : LoopExit) (leds : StatusLEDs),
      runLeds leds (shutdownTrace recActive p) = ⟨false, false⟩) := by
  refine ⟨rfl, fun _ => rfl, fun _ => rfl, fun _ => rfl, fun _ => rfl, ?_, ?_⟩
  · intro recActive p
    cases p <;> cases recActive <;> rfl
  · intro recActive p leds
    cases p <;> cases recActive <;> rfl

/-- C10: a video_resolution string that does not split on x into exactly two
parts makes Strategy B start_recording raise an uncaught ValueError after
the output path and the two temporary-file paths have already been assigned,
and that exception propagates out of the loop body, terminating the run loop
on its first tick regardless of how many poll ticks remain. -/
theorem C10_malformed_resolution (config : Config) (rec : AVRecorder) (env : AVStartEnv)
    (h1 : rec.video_process = none) (h2 : rec.audio_process = none)
    (hbad : (pySplit 'x' config.video_resolution).length ≠ 2) :
    (rec.start_recording config env
      = .error ("ValueError",
          { rec with current_file := some env.filename,
                     temp_video_file := some ("/tmp/temp_video_" ++ env.timestamp ++ ".mp4"),
                     temp_audio_file := some ("/tmp/temp_audio_" ++ env.timestamp ++ ".wav") })) ∧
    (∀ (t : ℚ) (stopEnv : AVStopEnv) (rest : List AVSysInput),
      avRunLoop config monitorInit rec
          (⟨true, t, env, stopEnv⟩ :: rest)
        = (monitorInit, rec, 1, true)) := by
  have hstart : rec.start_recording config env
      = .error ("ValueError",
          { rec with current_file := some env.filename,
                     temp_video_file := some ("/tmp/temp_video_" ++ env.timestamp ++ ".mp4"),
                     temp_audio_file := some ("/tmp/temp_audio_" ++ env.timestamp ++ ".wav") }) := by
    simp [AVRecorder.start_recording, h1, h2, pyUnpack2_eq_error _ hbad]
  refine ⟨hstart, ?_⟩
  intro t stopEnv rest
  simp [avRunLoop, avSystemStep, monitorInit, hstart]

/-- Witness for C10: resolution 1920 (no x separator) raises with the three paths
already assigned. -/
theorem C10_malformed_resolution_witness :
    AVRecorder.start_recording ⟨none, none, none, none, none⟩
        ⟨"/c", 28, 3, 60, 1/2, "1920", 30, 48000, 2, "h264", "plughw:2,0", "auto"⟩
        ⟨"f.mp4", "ts", .ok 1, .ok 2, none, none⟩
      = .error ("ValueError", ⟨none, none, some "f.mp4",
          some "/tmp/temp_video_ts.mp4", some "/tmp/temp_audio_ts.wav"⟩) := by
  have h := (C10_malformed_resolution
      ⟨"/c", 28, 3, 60, 1/2, "1920", 30, 48000, 2, "h264", "plughw:2,0", "auto"⟩
      ⟨none, none, none, none, none⟩
      ⟨"f.mp4", "ts", .ok 1, .ok 2, none, none⟩
      rfl rfl (by decide)).1
  exact h

/-! ### Claim theorems: launch failures and the settle check -/

/-- C3 counterexample: in the Strategy A recorder (capture_monitor.py), a
missing capture tool makes start_recording re-raise FileNotFoundError rather
than return a failure result, and the coordinator update propagates the
exception, ending the run loop. -/
theorem C3_counterexample :
    CMRecorder.start_recording ⟨none, none⟩ (fun _ => none)
        ⟨"/home/pi", "20250101_120000", .error "FileNotFoundError"⟩
      = .error ("FileNotFoundError", ⟨none, none⟩) ∧
    cmUpdate ⟨.IDLE, none⟩ ⟨none, none⟩
        ⟨true, 0, fun _ => none,
         ⟨"/home/pi", "20250101_120000", .error "FileNotFoundError"⟩,
         ⟨"/home/pi", true, 0, true, 0⟩⟩
      = .error ("FileNotFoundError", ⟨none, none⟩) := by
  exact ⟨rfl, rfl⟩

/-- C3 amended: launch failures are contained only in the Strategy B recorder
(av_monitor.py): there, any launch failure — Popen raising on either process,
or either process found exited after the settle period — is caught, the
handles are discarded, start_recording returns False, and the coordinator's
loop body completes normally with the state still Idle, the loop continuing
with the remaining ticks; in the Strategy A recorder (capture_monitor.py) a
tool-missing launch failure is re-raised to the coordinator and ends the run
loop. -/
theorem C3_launch_failure_amended
    (config : Config) (rec : AVRecorder) (env : AVStartEnv)
    (h1 : rec.video_process = none) (h2 : rec.audio_process = none)
    (w h' : String) (hsplit : pySplit 'x' config.video_resolution = [w, h'])
    (hfail : (∃ e, env.audioLaunch = .error e) ∨ (∃ e, env.videoLaunch = .error e) ∨
      env.audioEarlyExit.isSome = true ∨ env.videoEarlyExit.isSome = true) :
    (∃ events, rec.start_recording config env
        = .ok (false, ⟨none, none, none, none, none⟩, events)) ∧
    (∀ (t : ℚ) (stopEnv : AVStopEnv),
      avSystemStep config monitorInit rec ⟨true, t, env, stopEnv⟩
        = .ok (monitorInit, ⟨none, none, none, none, none⟩)) ∧
    (∀ (cm : CMRecorder) (poll : ℕ → Option ℤ) (cenv : CMStartEnv) (e : String),
      cm.is_recording poll = false → cenv.launch = .error e →
      cm.start_recording poll cenv = .error (e, cm) ∧
      (∀ (tc : Option ℚ) (inow : ℚ) (istop : CMStopEnv),
        cmUpdate ⟨.IDLE, tc⟩ cm ⟨true, inow, poll, cenv, istop⟩ = .error (e, cm))) := by
  have hstart : ∃ events, rec.start_recording config env
      = .ok (false, ⟨none, none, none, none, none⟩, events) := by
    obtain ⟨fn, ts, al, vl, ae, ve⟩ := env
    rcases al with ea | ap
    · exact ⟨_, by simp [AVRecorder.start_recording, AVRecorder.cleanup_failed_start,
        h1, h2, hsplit, pyUnpack2]; rfl⟩
    · rcases vl with ev | vp
      · exact ⟨_, by simp [AVRecorder.start_recording, AVRecorder.cleanup_failed_start,
          h1, h2, hsplit, pyUnpack2]; rfl⟩
      · rcases ae with _ | sa
        · rcases ve with _ | sv
          · exfalso
            rcases hfail with ⟨e, he⟩ | ⟨e, he⟩ | he | he <;> simp at he
          · exact ⟨_, by simp [AVRecorder.start_recording, AVRecorder.cleanup_failed_start,
              h1, h2, hsplit, pyUnpack2]; rfl⟩
        · exact ⟨_, by simp [AVRecorder.start_recording, AVRecorder.cleanup_failed_start,
            h1, h2, hsplit, pyUnpack2]; rfl⟩
  obtain ⟨events, hs⟩ := hstart
  refine ⟨⟨events, hs⟩, ?_, ?_⟩
  · intro t stopEnv
    simp [avSystemStep, monitorInit, hs]
  · intro cm poll cenv e hrec herr
    have hcs : cm.start_recording poll cenv = .error (e, cm) := by
      simp [CMRecorder.start_recording, hrec, herr]
    refine ⟨hcs, ?_⟩
    intro tc inow istop
    simp [cmUpdate, hcs]

/-- Witness for C3 amended: a concrete well-formed configuration in which the
arecord launch raises, yielding a contained False start. -/
theorem C3_launch_failure_amended_witness :
    ∃ events,
      AVRecorder.start_recording ⟨none, none, none, none, none⟩
          ⟨"/c", 28, 3, 60, 1/2, "1920x1080", 30, 48000, 2, "h264", "plughw:2,0", "auto"⟩
          ⟨"f.mp4", "ts", .error "FileNotFoundError", .ok 2, none, none⟩
        = .ok (false, ⟨none, none, none, none, none⟩, events) := by
  exact (C3_launch_failure_amended
      ⟨"/c", 28, 3, 60, 1/2, "1920x1080", 30, 48000, 2, "h264", "plughw:2,0", "auto"⟩
      ⟨none, none, none, none, none⟩
      ⟨"f.mp4", "ts", .error "FileNotFoundError", .ok 2, none, none⟩
      rfl rfl "1920" "1080" (by decide)
      (Or.inl ⟨"FileNotFoundError", rfl⟩)).1

/-- C4 counterexample: the Strategy A recorder performs no settle wait and no
exit check: even against a poll environment in which every launched process
has already exited, start_recording returns the filename (its success
indicator) and its external-effect trace is exactly the launch, with no sleep
and no poll. -/
theorem C4_counterexample :
    CMRecorder.start_recording ⟨none, none⟩ (fun _ => some 1)
        ⟨"/home/pi", "20250101_120000", .ok 7⟩
      = .ok (some "rec_20250101_120000.mp4",
          ⟨some 7, some "rec_20250101_120000.mp4"⟩,
          [.popenEv (cm_video_cmd "/home/pi/captures/rec_20250101_120000.mp4")]) ∧
    CMRecorder.is_recording ⟨some 7, some "rec_20250101_120000.mp4"⟩ (fun _ => some 1)
      = false ∧
    List.countP isSettleOrPollEv
        [RecEvent.popenEv (cm_video_cmd "/home/pi/captures/rec_20250101_120000.mp4")]
      = 0 := by
  refine ⟨rfl, rfl, rfl⟩

/-- C4 amended: only the Strategy B recorder (av_monitor.py) waits the fixed
0.5-second settle period after launching and then polls each process; if one
has already exited it logs the captured stderr, discards all handles and
returns failure, and otherwise returns True; the Strategy A recorder returns
its success indicator immediately after launch with no settle check. -/
theorem C4_settle_check_amended
    (config : Config) (rec : AVRecorder) (env : AVStartEnv) (ap vp : ℕ)
    (h1 : rec.video_process = none) (h2 : rec.audio_process = none)
    (ha : env.audioLaunch = .ok ap) (hv : env.videoLaunch = .ok vp)
    (w h' : String) (hsplit : pySplit 'x' config.video_resolution = [w, h']) :
    (env.audioEarlyExit = none → env.videoEarlyExit = none →
      rec.start_recording config env
        = .ok (true,
            { rec with audio_process := some ap, video_process := some vp,
                       current_file := some env.filename,
                       temp_video_file := some ("/tmp/temp_video_" ++ env.timestamp ++ ".mp4"),
                       temp_audio_file := some ("/tmp/temp_audio_" ++ env.timestamp ++ ".wav") },
            [.popenEv (audio_cmd config ("/tmp/temp_audio_" ++ env.timestamp ++ ".wav")),
             .popenEv (video_cmd config w h' ("/tmp/temp_video_" ++ env.timestamp ++ ".mp4")),
             .sleepEv (1/2), .pollEv ap, .pollEv vp])) ∧
    ((env.audioEarlyExit.isSome = true ∨ env.videoEarlyExit.isSome = true) →
      ∃ events, rec.start_recording config env
          = .ok (false, ⟨none, none, none, none, none⟩, events) ∧
        RecEvent.sleepEv (1/2) ∈ events ∧ RecEvent.pollEv ap ∈ events) := by
  obtain ⟨fn, ts, al, vl, ae, ve⟩ := env
  simp only at ha hv
  subst ha hv
  constructor
  · intro hae hve
    simp only at hae hve
    subst hae hve
    simp [AVRecorder.start_recording, h1, h2, hsplit, pyUnpack2]
  · intro hfail
    rcases ae with _ | sa
    · rcases ve with _ | sv
      · simp at hfail
      · have hstart : AVRecorder.start_recording rec config ⟨fn, ts, .ok ap, .ok vp, none, some sv⟩
            = .ok (false, ⟨none, none, none, none, none⟩,
              [.popenEv (audio_cmd config ("/tmp/temp_audio_" ++ ts ++ ".wav")),
               .popenEv (video_cmd config w h' ("/tmp/temp_video_" ++ ts ++ ".mp4")),
               .sleepEv (1/2), .pollEv ap, .pollEv vp, .communicateEv vp,
               .killEv ap, .waitEv ap, .killEv vp, .waitEv vp]) := by
          simp [AVRecorder.start_recording, AVRecorder.cleanup_failed_start,
            h1, h2, hsplit, pyUnpack2]
        exact ⟨_, hstart, by simp, by simp⟩
    · have hstart : AVRecorder.start_recording rec config ⟨fn, ts, .ok ap, .ok vp, some sa, ve⟩
          = .ok (false, ⟨none, none, none, none, none⟩,
            [.popenEv (audio_cmd config ("/tmp/temp_audio_" ++ ts ++ ".wav")),
             .popenEv (video_cmd config w h' ("/tmp/temp_video_" ++ ts ++ ".mp4")),
             .sleepEv (1/2), .pollEv ap, .communicateEv ap,
             .killEv ap, .waitEv ap, .killEv vp, .waitEv vp]) := by
        simp [AVRecorder.start_recording, AVRecorder.cleanup_failed_start,
          h1, h2, hsplit, pyUnpack2]
      exact ⟨_, hstart, by simp, by simp⟩

/-- Witness for C4 amended: a concrete clean launch performs launch, launch,
settle sleep, poll, poll and returns True. -/
theorem C4_settle_check_amended_witness :
    AVRecorder.start_recording ⟨none, none, none, none, none⟩
        ⟨"/c", 28, 3, 60, 1/2, "1920x1080", 30, 48000, 2, "h264", "plughw:2,0", "auto"⟩
        ⟨"f.mp4", "ts", .ok 4, .ok 5, none, none⟩
      = .ok (true,
          ⟨some 5, some 4, some "f.mp4", some "/tmp/temp_video_ts.mp4",
           some "/tmp/temp_audio_ts.wav"⟩,
          [.popenEv (audio_cmd
              ⟨"/c", 28, 3, 60, 1/2, "1920x1080", 30, 48000, 2, "h264", "plughw:2,0", "auto"⟩
              "/tmp/temp_audio_ts.wav"),
           .popenEv (video_cmd
              ⟨"/c", 28, 3, 60, 1/2, "1920x1080", 30, 48000, 2, "h264", "plughw:2,0", "auto"⟩
              "1920" "1080" "/tmp/temp_video_ts.mp4"),
           .sleepEv (1/2), .pollEv 4, .pollEv 5]) := by
  have h := (C4_settle_check_amended
      ⟨"/c", 28, 3, 60, 1/2, "1920x1080", 30, 48000, 2, "h264", "plughw:2,0", "auto"⟩
      ⟨none, none, none, none, none⟩
      ⟨"f.mp4", "ts", .ok 4, .ok 5, none, none⟩
      4 5 rfl rfl rfl rfl "1920" "1080" (by decide)).1 rfl rfl
  exact h

/-! ### Claim theorems: Strategy B merge and the coordinator state machine -/

lemma filter_isMergeEv_video_stop_events (p : Option ℕ) (g : Bool) :
    (video_stop_events p g).filter isMergeEv = [] := by
  cases p <;> cases g <;> rfl

lemma filter_isMergeEv_audio_stop_events (p : Option ℕ) (g : Bool) :
    (audio_stop_events p g).filter isMergeEv = [] := by
  cases p <;> cases g <;> rfl

/-- C5: for a Strategy B session (handles and paths set) in an environment
where both temporary files exist and the external merge and unlink calls
succeed, stop_recording performs exactly one ffmpeg merge — with the video
stream copied, audio encoded to AAC, shortest-stream duration and overwrite,
writing to the previously generated output path — deletes both temporary
files, clears the session and returns True; if either temporary file is
absent at stop time, no merge is invoked, the session is reported failed and
no final file is created. -/
theorem C5_strategy_b_merge (s : AVRecorder) (env : AVStopEnv) (tv ta out : String) (vp : ℕ)
    (hv : s.video_process = some vp)
    (htv : s.temp_video_file = some tv) (hta : s.temp_audio_file = some ta)
    (hout : s.current_file = some out) :
    (env.tempVideoExists = true → env.tempAudioExists = true →
      ∀ txt, env.merge = .completed 0 txt →
      ∀ n, env.statSize = .ok n →
      env.unlinkVideoOk = true → env.unlinkAudioOk = true →
      ∃ events,
        s.stop_recording env = (true, ⟨none, none, none, none, none⟩, events) ∧
        events.filter isMergeEv = [.mergeEv (merge_cmd tv ta out)] ∧
        RecEvent.unlinkEv tv ∈ events ∧ RecEvent.unlinkEv ta ∈ events) ∧
    ((env.tempVideoExists = false ∨ env.tempAudioExists = false) →
      (s.stop_recording env).1 = false ∧
      ((s.stop_recording env).2.2).filter isMergeEv = []) := by
  obtain ⟨svp, sap, scf, stv, sta⟩ := s
  simp only at hv htv hta hout
  subst hv htv hta hout
  obtain ⟨vg, ag, tve, tae, m, uv, ua, ss⟩ := env
  constructor
  · intro htve htae txt hm n hss huv hua
    simp only at htve htae hm hss huv hua
    subst htve htae hm hss huv hua
    have hstop : AVRecorder.stop_recording ⟨some vp, sap, some out, some tv, some ta⟩
          ⟨vg, ag, true, true, .completed 0 txt, true, true, .ok n⟩
        = (true, ⟨none, none, none, none, none⟩,
            (video_stop_events (some vp) vg ++ audio_stop_events sap ag)
              ++ [.mergeEv (merge_cmd tv ta out)]
              ++ [.unlinkEv tv, .unlinkEv ta] ++ [.statEv out]) := by
      simp [AVRecorder.stop_recording, AVRecorder.merge_av_files,
        AVRecorder.cleanup_recording, pyStr]
    refine ⟨_, hstop, ?_, ?_, ?_⟩
    · simp [List.filter_append, filter_isMergeEv_video_stop_events,
        filter_isMergeEv_audio_stop_events, isMergeEv]
    · simp
    · simp
  · intro hdis
    have hstop : AVRecorder.stop_recording ⟨some vp, sap, some out, some tv, some ta⟩
          ⟨vg, ag, tve, tae, m, uv, ua, ss⟩
        = (false, ⟨none, none, none, none, none⟩,
            video_stop_events (some vp) vg ++ audio_stop_events sap ag) := by
      rcases hdis with h | h
      · simp only at h
        subst h
        simp [AVRecorder.stop_recording, AVRecorder.cleanup_recording]
      · simp only at h
        subst h
        cases tve <;>
          simp [AVRecorder.stop_recording, AVRecorder.cleanup_recording]
    rw [hstop]
    exact ⟨rfl, by simp [List.filter_append, filter_isMergeEv_video_stop_events,
      filter_isMergeEv_audio_stop_events]⟩

/-- Witness for C5: a concrete successful merge session. -/
theorem C5_strategy_b_merge_witness :
    ∃ events,
      AVRecorder.stop_recording ⟨some 1, some 2, some "o.mp4", some "tv.mp4", some "ta.wav"⟩
          ⟨true, true, true, true, .completed 0 "", true, true, .ok 999⟩
        = (true, ⟨none, none, none, none, none⟩, events) ∧
      events.filter isMergeEv = [.mergeEv (merge_cmd "tv.mp4" "ta.wav" "o.mp4")] ∧
      RecEvent.unlinkEv "tv.mp4" ∈ events ∧ RecEvent.unlinkEv "ta.wav" ∈ events := by
  exact (C5_strategy_b_merge
      ⟨some 1, some 2, some "o.mp4", some "tv.mp4", some "ta.wav"⟩
      ⟨true, true, true, true, .completed 0 "", true, true, .ok 999⟩
      "tv.mp4" "ta.wav" "o.mp4" 1 rfl rfl rfl rfl).1
    rfl rfl "" rfl 999 rfl rfl rfl

lemma monitorStep_timerInv (d : ℚ) (s : MonitorState) (i : CoordInput)
    (h : timerInv s) : timerInv (monitorStep d s i).1 := by
  obtain ⟨st, tm⟩ := s
  obtain ⟨p, ct, sr⟩ := i
  cases st <;> cases p <;> cases sr <;> rcases tm with _ | t0 <;>
    simp_all [monitorStep, timerInv] <;> split <;> simp_all

lemma monitorRun_timerInv (d : ℚ) (s : MonitorState) (inputs : List CoordInput)
    (h : timerInv s) : timerInv (monitorRun d s inputs).1 := by
  induction inputs generalizing s with
  | nil => simpa [monitorRun] using h
  | cons i rest ih =>
    have h1 := monitorStep_timerInv d s i h
    rcases hs : monitorStep d s i with ⟨s1, c1⟩
    rw [hs] at h1
    have h2 := ih s1 h1
    rcases hr : monitorRun d s1 rest with ⟨s2, c2⟩
    rw [hr] at h2
    simpa [monitorRun, hs, hr] using h2

/-- C1: the coordinator follows the transition table — from Idle a presence
reading attempts start_recording (one call) and moves to Recording exactly on
success; from Recording an absence reading moves to WaitingToStop setting the
absence timer to the current time; from WaitingToStop presence returns to
Recording clearing the timer, and absence calls stop_recording and returns to
Idle exactly when the elapsed time reaches stop_delay_seconds; the timer is
set iff the state is WaitingToStop in the initial state, after any single
step from an invariant-satisfying state, and in every state reachable from
the initial state; and a full Idle-Recording-WaitingToStop-Idle cycle makes
exactly one start_recording and one stop_recording call. -/
theorem C1_coordinator (d : ℚ) :
    (∀ (s : MonitorState) (i : CoordInput),
      (s.state = .IDLE → i.presence = true → i.startResult = true →
        monitorStep d s i = (⟨.RECORDING, none⟩, ⟨1, 0⟩)) ∧
      (s.state = .IDLE → i.presence = true → i.startResult = false →
        monitorStep d s i = (s, ⟨1, 0⟩)) ∧
      (s.state = .IDLE → i.presence = false → monitorStep d s i = (s, ⟨0, 0⟩)) ∧
      (s.state = .RECORDING → i.presence = false →
        monitorStep d s i = (⟨.WAITING_TO_STOP, some i.current_time⟩, ⟨0, 0⟩)) ∧
      (s.state = .RECORDING → i.presence = true → monitorStep d s i = (s, ⟨0, 0⟩)) ∧
      (s.state = .WAITING_TO_STOP → i.presence = true →
        monitorStep d s i = (⟨.RECORDING, none⟩, ⟨0, 0⟩)) ∧
      (∀ t0, s.state = .WAITING_TO_STOP → i.presence = false → s.absence_timer = some t0 →
        (monitorStep d s i = (⟨.IDLE, none⟩, ⟨0, 1⟩) ↔ d ≤ i.current_time - t0) ∧
        (¬ d ≤ i.current_time - t0 → monitorStep d s i = (s, ⟨0, 0⟩)))) ∧
    (timerInv monitorInit ∧
      (∀ (s : MonitorState) (i : CoordInput), timerInv s → timerInv (monitorStep d s i).1) ∧
      (∀ inputs : List CoordInput, timerInv (monitorRun d monitorInit inputs).1)) ∧
    (∀ (ta tb tf : ℚ) (sb sf : Bool) (waits : List (ℚ × Bool)),
      (∀ w ∈ waits, w.1 - tb < d) → d ≤ tf - tb →
      monitorRun d monitorInit
          ([⟨true, ta, true⟩, ⟨false, tb, sb⟩]
            ++ waits.map (fun w => ⟨false, w.1, w.2⟩) ++ [⟨false, tf, sf⟩])
        = (monitorInit, ⟨1, 1⟩)) := by
  refine ⟨?_, ⟨by simp [timerInv, monitorInit], monitorStep_timerInv d,
    fun inputs => monitorRun_timerInv d monitorInit inputs (by simp [timerInv, monitorInit])⟩, ?_⟩
  · intro s i
    obtain ⟨st, tm⟩ := s
    obtain ⟨p, ct, sr⟩ := i
    refine ⟨?_, ?_, ?_, ?_, ?_, ?_, ?_⟩
    · intro hst hp hsr
      simp only at hst hp hsr
      subst hst hp hsr
      simp [monitorStep]
    · intro hst hp hsr
      simp only at hst hp hsr
      subst hst hp hsr
      simp [monitorStep]
    · intro hst hp
      simp only at hst hp
      subst hst hp
      simp [monitorStep]
    · intro hst hp
      simp only at hst hp
      subst hst hp
      simp [monitorStep]
    · intro hst hp
      simp only at hst hp
      subst hst hp
      simp [monitorStep]
    · intro hst hp
      simp only at hst hp
      subst hst hp
      simp [monitorStep]
    · intro t0 hst hp htm
      simp only at hst hp htm
      subst hst hp htm
      by_cases hd : d ≤ ct - t0
      · have hstep : monitorStep d ⟨.WAITING_TO_STOP, some t0⟩ ⟨false, ct, sr⟩
            = (⟨.IDLE, none⟩, ⟨0, 1⟩) := by
          simp [monitorStep, hd]
        exact ⟨⟨fun _ => hd, fun _ => hstep⟩, fun h => absurd hd h⟩
      · have hstep : monitorStep d ⟨.WAITING_TO_STOP, some t0⟩ ⟨false, ct, sr⟩
            = (⟨.WAITING_TO_STOP, some t0⟩, ⟨0, 0⟩) := by
          simp [monitorStep, hd]
        refine ⟨⟨fun h => ?_, fun h => absurd h hd⟩, fun _ => hstep⟩
        rw [hstep] at h
        simp at h
  · intro ta tb tf sb sf waits hw hf
    have hstep1 : monitorStep d monitorInit ⟨true, ta, true⟩ = (⟨.RECORDING, none⟩, ⟨1, 0⟩) := by
      simp [monitorStep, monitorInit]
    have hstep2 : monitorStep d ⟨.RECORDING, none⟩ ⟨false, tb, sb⟩
        = (⟨.WAITING_TO_STOP, some tb⟩, ⟨0, 0⟩) := by
      simp [monitorStep]
    have hstep3 : monitorStep d ⟨.WAITING_TO_STOP, some tb⟩ ⟨false, tf, sf⟩
        = (⟨.IDLE, none⟩, ⟨0, 1⟩) := by
      simp [monitorStep, hf]
    have hwait := monitorRun_waiting d tb waits hw [⟨false, tf, sf⟩]
    simp only [List.cons_append, List.nil_append, monitorRun, hstep1, hstep2,
      List.append_eq]
    rw [hwait]
    simp [monitorRun, hstep3, monitorInit]

/-- Witness for C1: the spec's cycle with stop delay 60, presence at t=0,
lost at t=10, still absent at t=40 (elapsed 30 < 60, keeps waiting) and at
t=70 (elapsed 60, stop fires): exactly one start and one stop. -/
theorem C1_coordinator_witness :
    monitorRun 60 monitorInit
        ([⟨true, 0, true⟩, ⟨false, 10, true⟩]
          ++ [((40 : ℚ), true)].map (fun w => ⟨false, w.1, w.2⟩) ++ [⟨false, 70, true⟩])
      = (monitorInit, ⟨1, 1⟩) := by
  exact (C1_coordinator 60).2.2 0 10 70 true true [(40, true)]
    (by
      intro w hw
      simp only [List.mem_singleton] at hw
      subst hw
      norm_num)
    (by norm_num)
